import Mathlib

/-!
# Verification of the GIA autonomous research-pipeline orchestrator

A shallow embedding, in Lean 4, of the parts of the repository that the
frozen claims are about:

* the citation accuracy gate (`src/citations/accuracy_gate.py`):
  tokenisation, number and named-entity extraction (faithful to the Python
  regular expressions used there, including their backtracking behaviour),
  year filtering, Jaccard overlap, claim verification and the gate driver;
* the autonomous pipeline runner (`scripts/gia_autonomous_runner.py`):
  phase execution, the degradation flag, the phase loop and the final
  `overall_success` computation, with the child-process behaviour supplied
  as an explicit input;
* the Edison literature client (`src/llm/edison_client.py`): the SHA-256
  request fingerprint and the request-deduplication window.

Machine integers are modelled as `Nat` with explicit reduction modulo
`2 ^ 32` where overflow matters; Python floats are modelled as `ℚ`.
Strings are treated over their character lists; the character classes of
the Python regexes (`\b`, `\d`, `[A-Za-z]`) are modelled over ASCII, which
covers every string the repository's gate feeds them.
-/

namespace Gia

/-! ## Character and string utilities -/

/-- Python regex word character (`\w` over ASCII): letters, digits, underscore. -/
def isWordCh (c : Char) : Bool := c.isAlphanum || c == '_'

/-- Word-character test lifted to an optional character; out-of-string counts
as a non-word position, as in Python's `\b` at the ends of the string. -/
def isWordOpt : Option Char → Bool
  | none => false
  | some c => isWordCh c

/-- Python's `\b`: a word boundary lies between two positions iff exactly one
side is a word character. -/
def wordBoundary (a b : Option Char) : Bool := isWordOpt a != isWordOpt b

/-- The whitespace characters stripped by Python's `str.strip()`. -/
def isPySpace (c : Char) : Bool :=
  c == ' ' || c == '\t' || c == '\n' || c == '\r' || c == '\x0b' || c == '\x0c'

/-- Python `str.strip()`: remove leading and trailing whitespace. -/
def pyStrip (s : String) : String :=
  String.mk (((s.data.dropWhile isPySpace).reverse.dropWhile isPySpace).reverse)

/-- `a` is an initial segment of `b`. -/
def listLeads : List Char → List Char → Bool
  | [], _ => true
  | _ :: _, [] => false
  | a :: as, b :: bs => a == b && listLeads as bs

/-- Substring test used to state facts about error messages. -/
def containsSubstrL (sub : List Char) : List Char → Bool
  | [] => sub.isEmpty
  | c :: t => listLeads sub (c :: t) || containsSubstrL sub t

/-- `containsSubstr s sub`: `sub` occurs contiguously in `s` (Python `in`). -/
def containsSubstr (s sub : String) : Bool := containsSubstrL sub.data s.data

/-! ## The regex scanners of `accuracy_gate.py`

`_tokenize` uses `re.findall(r"[A-Za-z0-9]+", text.lower())`,
`_extract_numbers` uses `re.findall(r"\b\d+(?:\.\d+)?%?\b", text)`, and
`_extract_named_entities` uses
`re.findall(r"\b(?:[A-Z][a-zA-Z]{2,}|[A-Z]{2,})\b", text)`.

Each scanner below implements Python's leftmost, greedy-with-backtracking
`findall` semantics for its specific pattern.  For the numeric pattern the
trailing `\b` after the optional `%` makes the `%` part of the match only
when the next character is a word character; otherwise backtracking drops
the `%` (and, when a following letter blocks the boundary, the fractional
part as well).  The case analysis below enumerates exactly the candidates
Python's backtracking tries, in order. -/

/-- Maximal `[A-Za-z0-9]+` runs of a character list, in order. -/
def alnumRunsGo : Nat → List Char → List (List Char)
  | 0, _ => []
  | _, [] => []
  | fuel + 1, c :: cs =>
    if c.isAlphanum then
      (c :: cs.takeWhile Char.isAlphanum) :: alnumRunsGo fuel (cs.dropWhile Char.isAlphanum)
    else
      alnumRunsGo fuel cs

/-- `re.findall(r"[A-Za-z0-9]+", s)`. -/
def alnumRuns (cs : List Char) : List (List Char) := alnumRunsGo cs.length cs

/-- One attempt of `\b\d+(?:\.\d+)?%?\b` at the current position, given the
previous character (for the leading `\b`).  Returns the matched characters
and the rest of the input. -/
def numMatch (prev : Option Char) : List Char → Option (List Char × List Char)
  | [] => none
  | c :: cs =>
    if !wordBoundary prev (some c) then none
    else if !c.isDigit then none
    else
      let d := c :: cs.takeWhile Char.isDigit
      let r1 := cs.dropWhile Char.isDigit
      let withFrac : Option (List Char × List Char) :=
        match r1 with
        | '.' :: r1b =>
          let f := r1b.takeWhile Char.isDigit
          if f.isEmpty then none else some (d ++ '.' :: f, r1b.dropWhile Char.isDigit)
        | _ => none
      let (m, r2) := withFrac.getD (d, r1)
      match r2 with
      | '%' :: r3 =>
        -- `%?` matched: the final `\b` holds iff a word character follows;
        -- otherwise backtrack to the digit/`%` boundary, which always holds.
        if isWordOpt r3.head? then some (m ++ ['%'], r3) else some (m, r2)
      | _ =>
        if isWordOpt r2.head? then
          -- boundary blocked by a following word character: drop the
          -- fractional part if one was taken (the digit/`.` boundary holds),
          -- else the whole attempt fails.
          match withFrac with
          | some _ => some (d, r1)
          | none => none
        else some (m, r2)

/-- Scanner for `re.findall(r"\b\d+(?:\.\d+)?%?\b", s)`. -/
def numsGo : Nat → Option Char → List Char → List String
  | 0, _, _ => []
  | _, _, [] => []
  | fuel + 1, prev, c :: cs =>
    match numMatch prev (c :: cs) with
    | some (m, rest) => String.mk m :: numsGo fuel (some (m.getLastD c)) rest
    | none => numsGo fuel (some c) cs

/-- One attempt of `\b(?:[A-Z][a-zA-Z]{2,}|[A-Z]{2,})\b` at the current
position.  The first alternative (with its greedy `{2,}`) is tried before
the second, as in Python. -/
def entMatch (prev : Option Char) : List Char → Option (List Char × List Char)
  | [] => none
  | c :: cs =>
    if isWordOpt prev then none
    else if !c.isUpper then none
    else
      let letters := cs.takeWhile Char.isAlpha
      let restA := cs.dropWhile Char.isAlpha
      if letters.length ≥ 2 && !isWordOpt restA.head? then
        some (c :: letters, restA)
      else
        let ups := cs.takeWhile Char.isUpper
        let restB := cs.dropWhile Char.isUpper
        if !ups.isEmpty && !isWordOpt restB.head? then
          some (c :: ups, restB)
        else none

/-- Scanner for `re.findall(r"\b(?:[A-Z][a-zA-Z]{2,}|[A-Z]{2,})\b", s)`. -/
def entsGo : Nat → Option Char → List Char → List String
  | 0, _, _ => []
  | _, _, [] => []
  | fuel + 1, prev, c :: cs =>
    match entMatch prev (c :: cs) with
    | some (m, rest) => String.mk m :: entsGo fuel (some (m.getLastD c)) rest
    | none => entsGo fuel (some c) cs

/-! ## `_tokenize`, `_extract_numbers`, `_extract_named_entities`,
`_filter_year_like_numbers` and `_jaccard` -/

/-- The stop-word set `_STOPWORDS` of `accuracy_gate.py`. -/
def STOPWORDS : List String :=
  ["a", "an", "and", "are", "as", "at", "be", "by", "for", "from", "has",
   "have", "in", "is", "it", "its", "of", "on", "or", "that", "the", "this",
   "to", "was", "were", "with"]

/-- `_tokenize`: lowercase, find `[A-Za-z0-9]+` runs, drop runs shorter than
3 characters, all-digit runs and stop words; collect into a set. -/
def tokenize (text : String) : Finset String :=
  (((alnumRuns (text.data.map Char.toLower)).map String.mk).filter fun raw =>
    ¬ (raw.data.length < 3 || raw.data.all Char.isDigit || STOPWORDS.contains raw)).toFinset

/-- `_extract_named_entities`: capitalised words and all-caps tokens,
lowercased and collected into a set. -/
def extract_named_entities (text : String) : Finset String :=
  ((entsGo text.data.length none text.data).map (fun m => String.mk (m.data.map Char.toLower))).toFinset

/-- `_extract_numbers`: integers, decimals and percents, as matched by the
pattern `\b\d+(?:\.\d+)?%?\b`, collected into a set. -/
def extract_numbers (text : String) : Finset String :=
  (numsGo text.data.length none text.data).toFinset

/-- Python `str.isdigit` restricted to ASCII: non-empty and all digits. -/
def allDigits (s : String) : Bool := !s.data.isEmpty && s.data.all Char.isDigit

/-- Python `str.endswith`, over the character lists. -/
def endsWithStr (s suffix : String) : Bool :=
  listLeads suffix.data.reverse s.data.reverse

/-- Numeric value of an all-digit string. -/
def digitsToNat (s : String) : Nat := s.data.foldl (fun a c => 10 * a + (c.toNat - 48)) 0

/-- The keep-predicate of `_filter_year_like_numbers`: a token survives the
filter iff it ends in `%`, or it is not a 4-digit integer in `[1900, 2100]`. -/
def keepNumber (n : String) : Bool :=
  endsWithStr n "%" ||
    !(allDigits n && n.data.length == 4 && 1900 ≤ digitsToNat n && digitsToNat n ≤ 2100)

/-- `_filter_year_like_numbers`: remove year-like integers (1900-2100) so
they do not dominate numeric checks. -/
def filter_year_like_numbers (nums : Finset String) : Finset String :=
  nums.filter (fun n => keepNumber n)

/-- `_jaccard`: 1 when both sets are empty, 0 when exactly one is empty,
`|a ∩ b| / |a ∪ b|` otherwise. -/
def jaccard (a b : Finset String) : ℚ :=
  if a = ∅ ∧ b = ∅ then 1
  else if a = ∅ ∨ b = ∅ then 0
  else if (a ∪ b).card = 0 then 0
  else ((a ∩ b).card : ℚ) / ((a ∪ b).card : ℚ)

/-- Python `round(x, 6)` as used on the report scores.  Ties (exact odd
multiples of `5e-7`) round away from the even digit here where Python's
float rounding is half-to-even; no claim depends on tie behaviour. -/
def round6 (q : ℚ) : ℚ := ((round (q * 1000000) : ℤ) : ℚ) / 1000000

/-! ## JSON values

The gate reads `claims/claims.json` and `sources/*/evidence.json` through
`json.load`; the parsed payloads are modelled by `JValue`.  Objects keep
their fields as an association list; as in `json.load`, a duplicated key is
resolved to the last occurrence by `getField`. -/

inductive JValue where
  | jnull : JValue
  | jbool : Bool → JValue
  | jnum : Int → JValue
  | jstr : String → JValue
  | jarr : List JValue → JValue
  | jobj : List (String × JValue) → JValue

/-- Python `dict.get`: the value of the last occurrence of `key`, if any. -/
def getField (v : JValue) (key : String) : Option JValue :=
  match v with
  | .jobj fields => fields.foldl (fun acc p => if p.1 = key then some p.2 else acc) none
  | _ => none

/-- `isinstance(v, dict)`. -/
def isObj : JValue → Bool
  | .jobj _ => true
  | _ => false

/-- Python truthiness of a JSON value. -/
def pyTruthy : JValue → Bool
  | .jnull => false
  | .jbool b => b
  | .jnum n => n ≠ 0
  | .jstr s => s ≠ ""
  | .jarr l => !l.isEmpty
  | .jobj l => !l.isEmpty

/-- Python `str()` on a JSON value.  Exact on the strings, `None`, booleans
and integers that can reach it in the gate; containers (which never reach a
`str()` call on a record that passed schema validation) are abbreviated. -/
def pyStr : JValue → String
  | .jnull => "None"
  | .jbool true => "True"
  | .jbool false => "False"
  | .jnum n => toString n
  | .jstr s => s
  | .jarr _ => "[…]"
  | .jobj _ => "<dict>"

/-- `str(x)` for `x = claim.get(k)` where a missing key yields `None`. -/
def pyStrOpt (o : Option JValue) : String :=
  match o with
  | none => "None"
  | some v => pyStr v

/-- `str(claim.get(k) or "")`: the empty string when the field is missing or
falsy, `str` of the value otherwise. -/
def strOrEmpty (o : Option JValue) : String :=
  match o with
  | none => ""
  | some v => if pyTruthy v then pyStr v else ""

/-- `[str(x) for x in v if isinstance(x, str) and x.strip()]` applied to a
field expected to hold a list; a non-list yields `[]`. -/
def strListOf (o : Option JValue) : List String :=
  match o with
  | some (.jarr xs) =>
    xs.filterMap fun x =>
      match x with
      | .jstr s => if pyStrip s ≠ "" then some s else none
      | _ => none
  | _ => []

/-- The raw value of a list field, kept as-is when it is a list, `[]`
otherwise (`claim.get(k) if isinstance(claim.get(k), list) else []`). -/
def rawListOf (o : Option JValue) : List JValue :=
  match o with
  | some (.jarr xs) => xs
  | _ => []

/-- The field holds a string. -/
def isStrField (v : JValue) (key : String) : Bool :=
  match getField v key with
  | some (.jstr _) => true
  | _ => false

/-- The field holds a non-empty string. -/
def isNonemptyStrField (v : JValue) (key : String) : Bool :=
  match getField v key with
  | some (.jstr s) => s ≠ ""
  | _ => false

/-- The field is present. -/
def hasField (v : JValue) (key : String) : Bool := (getField v key).isSome

/-- The field holds an integer. -/
def isIntField (v : JValue) (key : String) : Bool :=
  match getField v key with
  | some (.jnum _) => true
  | _ => false

/-! ## Schema validators

`accuracy_gate.py` imports `is_valid_claim_record` and
`is_valid_evidence_item` from `src/utils/schema_validation.py`, a module
that is not among the sources; both are modelled from the specification's
data-model section. -/

/-- Modelled from the spec: `is_valid_claim_record` of the absent
`src/utils/schema_validation.py`.  A claim record carries `schema_version`
and `created_at`, a non-empty `claim_id`, a `statement`, a `kind` in
`{source_backed, computed, theoretical}`, and satisfies the cross-field
invariants `source_backed ⇒ evidence_ids or citation_keys present` and
`computed ⇒ metric_keys present`. -/
def is_valid_claim_record (v : JValue) : Bool :=
  isStrField v "schema_version" && isStrField v "created_at" &&
  isNonemptyStrField v "claim_id" && isStrField v "statement" &&
  match getField v "kind" with
  | some (.jstr "source_backed") => hasField v "evidence_ids" || hasField v "citation_keys"
  | some (.jstr "computed") => hasField v "metric_keys"
  | some (.jstr "theoretical") => true
  | _ => false

/-- Modelled from the spec: `is_valid_evidence_item` of the absent
`src/utils/schema_validation.py`.  An evidence item carries
`schema_version` and `created_at`, non-empty `evidence_id` and `source_id`,
a `kind` in `{quote, paraphrase, metric, figure, table}`, a `locator` with
`type`, `value` and a `span` of integer `start_line`/`end_line`, an
`excerpt`, and a `parser` with a `name`. -/
def is_valid_evidence_item (v : JValue) : Bool :=
  isStrField v "schema_version" && isStrField v "created_at" &&
  isNonemptyStrField v "evidence_id" && isNonemptyStrField v "source_id" &&
  (match getField v "kind" with
   | some (.jstr k) =>
     ["quote", "paraphrase", "metric", "figure", "table"].contains k
   | _ => false) &&
  (match getField v "locator" with
   | some loc =>
     isStrField loc "type" && isStrField loc "value" &&
     (match getField loc "span" with
      | some sp => isIntField sp "start_line" && isIntField sp "end_line"
      | none => false)
   | none => false) &&
  isStrField v "excerpt" &&
  (match getField v "parser" with
   | some p => isStrField p "name"
   | none => false)

/-! ## Citation accuracy gate: configuration and reports -/

/-- `OnFailureAction = Literal["block", "downgrade"]`. -/
inductive OnFailureAction where
  | block : OnFailureAction
  | downgrade : OnFailureAction
deriving DecidableEq, Repr

/-- The four gate actions (`pass | block | downgrade | disabled`). -/
inductive GateAction where
  | pass : GateAction
  | block : GateAction
  | downgrade : GateAction
  | disabled : GateAction
deriving DecidableEq, Repr

/-- `str(action)`. -/
def GateAction.text : GateAction → String
  | .pass => "pass"
  | .block => "block"
  | .downgrade => "downgrade"
  | .disabled => "disabled"

/-- `CitationAccuracyGateConfig`. -/
structure CitationAccuracyGateConfig where
  enabled : Bool
  on_failure : OnFailureAction
  min_alignment_score : ℚ
  min_keyword_overlap : ℚ
  enable_entity_overlap : Bool
  min_entity_overlap : ℚ
  enable_numeric_consistency : Bool
  max_evidence_items_per_claim : Nat
deriving Repr

/-- The dataclass defaults of `CitationAccuracyGateConfig`. -/
def defaultGateConfig : CitationAccuracyGateConfig :=
  ⟨false, .block, 18/100, 6/100, false, 20/100, false, 5⟩

/-- One per-claim report dict appended to `reports`. -/
structure GateReport where
  claim_id : String
  citation_keys : List JValue
  evidence_ids : List String
  evidence_ids_used : List String
  checked : Bool
  ok : Bool
  reasons : List String
  alignment_score : ℚ
  keyword_overlap : ℚ
  entity_overlap : ℚ
  numeric_ok : Bool

/-- The dict returned by `check_citation_accuracy_gate`. -/
structure GateResult where
  ok : Bool
  enabled : Bool
  action : GateAction
  reports : List GateReport
  checked_claims_total : Nat
  failed_claims_total : Nat
  skipped_missing_evidence_total : Nat
  claims_file_present : Bool
  claims_read_error : Option String
  claims_invalid_items : Nat
  evidence_invalid_items : Nat
  evidence_files_scanned : Nat

/-! ## `CitationAccuracyVerifier.verify_claim` -/

/-- The text assembled from the first `max_evidence_items_per_claim`
evidence items: non-blank `excerpt` and `context` strings, joined by
newlines, together with the stripped `evidence_id`s encountered
(`combined` / `used_ids` in the source). -/
def gatherEvidence (cfg : CitationAccuracyGateConfig) (evidence_items : List JValue) :
    List String × List String :=
  (evidence_items.take cfg.max_evidence_items_per_claim).foldl
    (fun acc item =>
      let used :=
        match getField item "evidence_id" with
        | some (.jstr s) => if pyStrip s ≠ "" then acc.2 ++ [pyStrip s] else acc.2
        | _ => acc.2
      let withExcerpt :=
        match getField item "excerpt" with
        | some (.jstr s) => if pyStrip s ≠ "" then acc.1 ++ [s] else acc.1
        | _ => acc.1
      let withContext :=
        match getField item "context" with
        | some (.jstr s) => if pyStrip s ≠ "" then withExcerpt ++ [s] else withExcerpt
        | _ => withExcerpt
      (withContext, used))
    ([], [])

/-- `CitationAccuracyVerifier.verify_claim`.  Scores the alignment between
the claim `statement` and the union of the referenced excerpts, and decides
the per-claim `ok` flag against the configured thresholds. -/
def verify_claim (cfg : CitationAccuracyGateConfig) (claim : JValue)
    (evidence_items : List JValue) : GateReport :=
  let claim_id := pyStrip (strOrEmpty (getField claim "claim_id"))
  let statement := pyStrip (strOrEmpty (getField claim "statement"))
  let evidence_ids_list := strListOf (getField claim "evidence_ids")
  let citation_keys_list := strListOf (getField claim "citation_keys")
  let (combined, used_ids) := gatherEvidence cfg evidence_items
  let evidence_text := String.intercalate "\n" combined
  let claim_tokens := tokenize statement
  let evidence_tokens := tokenize evidence_text
  let keyword_overlap := jaccard claim_tokens evidence_tokens
  let entity_overlap : ℚ :=
    if cfg.enable_entity_overlap then
      jaccard (extract_named_entities statement) (extract_named_entities evidence_text)
    else 0
  let numeric_ok : Bool :=
    if cfg.enable_numeric_consistency then
      let claim_nums := filter_year_like_numbers (extract_numbers statement)
      let evidence_nums := filter_year_like_numbers (extract_numbers evidence_text)
      if claim_nums ≠ ∅ ∧ ¬ claim_nums ⊆ evidence_nums then false else true
    else true
  let score1 : ℚ :=
    if cfg.enable_entity_overlap then min 1 (keyword_overlap + 20/100 * entity_overlap)
    else keyword_overlap
  let alignment_score : ℚ :=
    if cfg.enable_numeric_consistency && !numeric_ok then max 0 (score1 * (50/100))
    else score1
  let c1 : Bool := keyword_overlap < cfg.min_keyword_overlap
  let c2 : Bool := cfg.enable_entity_overlap && entity_overlap < cfg.min_entity_overlap
  let c3 : Bool := cfg.enable_numeric_consistency && !numeric_ok
  let c4 : Bool := alignment_score < cfg.min_alignment_score
  let reasons :=
    (if c1 then ["keyword_overlap_below_threshold"] else []) ++
    (if c2 then ["entity_overlap_below_threshold"] else []) ++
    (if c3 then ["numeric_mismatch"] else []) ++
    (if c4 then ["alignment_score_below_threshold"] else [])
  { claim_id := claim_id
    citation_keys := citation_keys_list.map .jstr
    evidence_ids := evidence_ids_list
    evidence_ids_used := used_ids
    checked := true
    ok := !(c1 || c2 || c3 || c4)
    reasons := reasons
    alignment_score := round6 alignment_score
    keyword_overlap := round6 keyword_overlap
    entity_overlap := round6 entity_overlap
    numeric_ok := numeric_ok }

/-! ## The project folder as data

The gate is a pure function of the on-disk JSON it reads; a project folder
is modelled by the state of `claims/claims.json` and of the
`sources/*/evidence.json` files (`_iter_evidence_files` only globs
existing files, so the evidence list holds the files that exist, keyed by
source id in the order-independent form; the gate sorts them as the sorted
glob does).  `validate_project_folder` (from the absent
`src/utils/validation.py`) is modelled from the spec as accepting every
project state presented as data. -/

/-- The observable state of one JSON file: absent, unreadable (with the
exception's type name, as `_load_json_list` reports it), or parsed. -/
inductive FileState where
  | absent : FileState
  | unreadable : String → FileState
  | content : JValue → FileState

/-- A project folder, as far as the citation accuracy gate reads it. -/
structure ProjectState where
  claimsFile : FileState
  evidenceFiles : List (String × FileState)

/-- `_load_json_list`: `([], None)` for a missing file, `([], errname)` on a
read/parse error, `([], "not_a_list")` for a non-list payload, the payload
otherwise. -/
def load_json_list : FileState → List JValue × Option String
  | .absent => ([], none)
  | .unreadable e => ([], some e)
  | .content (.jarr xs) => (xs, none)
  | .content _ => ([], some "not_a_list")

/-- `Path.exists()` for the claims file. -/
def fileExists : FileState → Bool
  | .absent => false
  | _ => true

/-- `_load_source_backed_claims`: the valid `source_backed` claim records,
the count of invalid items, the file-present flag and the read error. -/
def load_source_backed_claims (fs : FileState) :
    List JValue × Nat × Bool × Option String :=
  let (payload, err) := load_json_list fs
  let invalid := (payload.filter fun item => !(isObj item && is_valid_claim_record item)).length
  let claims := (payload.filter fun item => isObj item && is_valid_claim_record item).filter
    fun item => pyStrOpt (getField item "kind") = "source_backed"
  (claims, invalid, fileExists fs, err)

/-- Association-list update with Python-dict semantics: replace in place if
the key is present, append otherwise. -/
def dictInsert (m : List (String × JValue)) (k : String) (v : JValue) :
    List (String × JValue) :=
  if m.any (fun p => p.1 = k) then m.map (fun p => if p.1 = k then (k, v) else p)
  else m ++ [(k, v)]

/-- First-match lookup (Python dict keys are unique by construction). -/
def dictGet (m : List (String × JValue)) (k : String) : Option JValue :=
  (m.find? (fun p => p.1 = k)).map Prod.snd

/-- Insertion sort of the evidence files by source id, modelling the sorted
glob of `_iter_evidence_files`. -/
def insertByKey (x : String × FileState) : List (String × FileState) → List (String × FileState)
  | [] => [x]
  | y :: ys => if x.1 ≤ y.1 then x :: y :: ys else y :: insertByKey x ys

/-- The evidence files in sorted order. -/
def sortedEvidenceFiles (pf : ProjectState) : List (String × FileState) :=
  pf.evidenceFiles.foldr insertByKey []

/-- `_load_evidence_map`: `(by_evidence_id, invalid_items, files_scanned)`.
Each scanned file contributes its valid evidence items keyed by stripped
`evidence_id`; unreadable or non-list files are counted as scanned and
skipped. -/
def load_evidence_map (pf : ProjectState) :
    List (String × JValue) × Nat × Nat :=
  (sortedEvidenceFiles pf).foldl
    (fun acc file =>
      let (by_id, invalid, scanned) := acc
      let (payload, err) := load_json_list file.2
      match err with
      | some _ => (by_id, invalid, scanned + 1)
      | none =>
        payload.foldl
          (fun acc2 item =>
            let (m, inv, sc) := acc2
            if !(isObj item && is_valid_evidence_item item) then (m, inv + 1, sc)
            else
              match getField item "evidence_id" with
              | some (.jstr s) =>
                if pyStrip s ≠ "" then (dictInsert m (pyStrip s) item, inv, sc)
                else (m, inv, sc)
              | _ => (m, inv, sc))
          (by_id, invalid, scanned + 1))
    ([], 0, 0)

/-! ## The gate driver -/

/-- A value set as a span attribute. -/
inductive AttrVal where
  | aBool : Bool → AttrVal
  | aStr : String → AttrVal
  | aInt : Int → AttrVal
  | aRat : ℚ → AttrVal
deriving DecidableEq

/-- Accumulator of the claims loop in `check_citation_accuracy_gate`. -/
structure ClaimsAcc where
  reports : List GateReport
  checked : Nat
  failed : Nat
  skipped : Nat

/-- A skip report (`checked=False, ok=True`) with the given reason. -/
def skipReport (claim : JValue) (reason : String) (ids used : List String) : GateReport :=
  { claim_id := pyStrip (strOrEmpty (getField claim "claim_id"))
    citation_keys := rawListOf (getField claim "citation_keys")
    evidence_ids := ids
    evidence_ids_used := used
    checked := false
    ok := true
    reasons := [reason]
    alignment_score := 0
    keyword_overlap := 0
    entity_overlap := 0
    numeric_ok := true }

/-- The body of the claims loop of `check_citation_accuracy_gate`: skip a
claim without usable `evidence_ids`, skip (as missing evidence) a claim
with an unresolved id, verify the rest. -/
def processClaim (cfg : CitationAccuracyGateConfig)
    (evidence_map : List (String × JValue)) (acc : ClaimsAcc) (claim : JValue) :
    ClaimsAcc :=
  let evidence_ids_list := strListOf (getField claim "evidence_ids")
  if evidence_ids_list.isEmpty then
    { acc with
      skipped := acc.skipped + 1
      reports := acc.reports ++ [skipReport claim "missing_evidence_ids" [] []] }
  else
    let evidence_items := evidence_ids_list.filterMap (dictGet evidence_map)
    let missing_any := evidence_ids_list.any (fun ev_id => (dictGet evidence_map ev_id).isNone)
    if missing_any || evidence_items.isEmpty then
      let used := evidence_items.filterMap fun i =>
        match getField i "evidence_id" with
        | some (.jstr s) => some s
        | _ => none
      { acc with
        skipped := acc.skipped + 1
        reports := acc.reports ++
          [skipReport claim "evidence_ids_unresolved" evidence_ids_list used] }
    else
      let rep := verify_claim cfg claim evidence_items
      { reports := acc.reports ++ [rep]
        checked := acc.checked + 1
        failed := acc.failed + (if rep.ok = false then 1 else 0)
        skipped := acc.skipped }

/-- Everything `check_citation_accuracy_gate` does beyond returning the
result dict: the attributes it sets on the current trace span (through
`safe_set_current_span_attributes`, modelled from the spec as recording
exactly the attributes passed to it) and the files it writes under the
project folder (the source performs no file writes). -/
structure GateOutcome where
  result : GateResult
  spanAttrs : List (String × AttrVal)
  fileWrites : List String

/-- `check_citation_accuracy_gate`.  Pure over the project state; returns
the result dict together with the trace-span attributes set and the file
writes performed. -/
def check_citation_accuracy_gate (pf : ProjectState)
    (cfg : CitationAccuracyGateConfig) : GateOutcome :=
  if cfg.enabled = false then
    let result : GateResult :=
      { ok := true
        enabled := false
        action := .disabled
        reports := []
        checked_claims_total := 0
        failed_claims_total := 0
        skipped_missing_evidence_total := 0
        claims_file_present := fileExists pf.claimsFile
        claims_read_error := none
        claims_invalid_items := 0
        evidence_invalid_items := 0
        evidence_files_scanned := 0 }
    { result := result
      spanAttrs :=
        [("gate.name", .aStr "citation_accuracy"),
         ("gate.enabled", .aBool false),
         ("gate.ok", .aBool true),
         ("gate.action", .aStr "disabled")]
      fileWrites := [] }
  else
    let (claims, claims_invalid, claims_file_present, claims_read_error) :=
      load_source_backed_claims pf.claimsFile
    let (evidence_map, evidence_invalid, evidence_files_scanned) := load_evidence_map pf
    let acc := claims.foldl (processClaim cfg evidence_map) ⟨[], 0, 0, 0⟩
    let has_problem := acc.failed > 0
    let action : GateAction :=
      if has_problem then (if cfg.on_failure = .block then .block else .downgrade) else .pass
    let ok : Bool := !(has_problem && cfg.on_failure = .block)
    let result : GateResult :=
      { ok := ok
        enabled := true
        action := action
        reports := acc.reports
        checked_claims_total := acc.checked
        failed_claims_total := acc.failed
        skipped_missing_evidence_total := acc.skipped
        claims_file_present := claims_file_present
        claims_read_error := claims_read_error
        claims_invalid_items := claims_invalid
        evidence_invalid_items := evidence_invalid
        evidence_files_scanned := evidence_files_scanned }
    { result := result
      spanAttrs :=
        [("gate.name", .aStr "citation_accuracy"),
         ("gate.enabled", .aBool true),
         ("gate.ok", .aBool ok),
         ("gate.action", .aStr action.text),
         ("citation_accuracy.checked_claims_total", .aInt acc.checked),
         ("citation_accuracy.failed_claims_total", .aInt acc.failed),
         ("citation_accuracy.skipped_missing_evidence_total", .aInt acc.skipped),
         ("citation_accuracy.min_alignment_score", .aRat cfg.min_alignment_score),
         ("citation_accuracy.min_keyword_overlap", .aRat cfg.min_keyword_overlap),
         ("citation_accuracy.enable_entity_overlap", .aBool cfg.enable_entity_overlap),
         ("citation_accuracy.enable_numeric_consistency", .aBool cfg.enable_numeric_consistency)]
      fileWrites := [] }

/-! ## The autonomous pipeline runner (`scripts/gia_autonomous_runner.py`)

`execute_phase` launches the phase script in a child process and streams
its merged output through `DualLogger.process_output_line`; the counters
and degradation reasons the logger has accumulated when the child exits
are read back at the end.  The child's behaviour (exit code, accumulated
monitor state, wall-clock duration) is supplied as an explicit input;
everything `execute_phase` computes from it is translated below. -/

/-- The counters and degradation reasons accumulated by `DualLogger` while
streaming one child's output (`get_counts()` and `degradation_reasons`). -/
structure MonitorCounts where
  errors : Nat
  warnings : Nat
  criticals : Nat
  reasons : List String
deriving DecidableEq

/-- How one phase child behaved: a normal exit with the monitor's
observations, a timeout (`subprocess.TimeoutExpired`), or a launch
failure (the generic `except Exception` path). -/
inductive ChildOutcome where
  | exited : Int → MonitorCounts → ChildOutcome
  | timedOut : ChildOutcome
  | launchFailed : ChildOutcome
deriving DecidableEq

/-- The environment-determined inputs of one `execute_phase` call. -/
structure PhaseExec where
  scriptExists : Bool
  outcome : ChildOutcome
  execTime : ℚ
deriving DecidableEq

/-- `PhaseResult` (the dataclass of the runner). -/
structure PhaseResult where
  phase_id : String
  phase_name : String
  success : Bool
  exit_code : Int
  execution_time : ℚ
  degraded : Bool
  degradation_reasons : List String
  error_count : Nat
  warning_count : Nat
  critical_count : Nat
deriving DecidableEq

/-- `execute_phase`.  A missing script, a timeout and a launch failure all
return a failed result with `exit_code=-1`, `error_count=1` and the
dataclass defaults for the remaining fields; a child that exited is
evaluated against the monitor's observations. -/
def execute_phase (phase_id phase_name : String) (px : PhaseExec) : PhaseResult :=
  if px.scriptExists = false then
    ⟨phase_id, phase_name, false, -1, 0, false, [], 1, 0, 0⟩
  else
    match px.outcome with
    | .exited exit_code counts =>
      let success : Bool := exit_code == 0
      let degraded : Bool := !counts.reasons.isEmpty || (!success && counts.errors > 0)
      ⟨phase_id, phase_name, success, exit_code, px.execTime, degraded,
       counts.reasons, counts.errors, counts.warnings, counts.criticals⟩
    | .timedOut => ⟨phase_id, phase_name, false, -1, px.execTime, false, [], 1, 0, 0⟩
    | .launchFailed => ⟨phase_id, phase_name, false, -1, px.execTime, false, [], 1, 0, 0⟩

/-- `PIPELINE_PHASES`: `(script_name, phase_id, description, is_critical)`. -/
def PIPELINE_PHASES : List (String × String × String × Bool) :=
  [("run_workflow.py", "phase_1", "Research Workflow (Intake)", true),
   ("run_literature_workflow.py", "phase_2", "Literature Workflow", false),
   ("run_gap_resolution.py", "phase_3", "Gap Resolution Workflow", false),
   ("run_writing_review_stage.py", "phase_4", "Writing Review Stage", false),
   ("run_paper_assembly.py", "phase_5a", "Paper Assembly", false),
   ("run_paper_compile.py", "phase_5b", "Paper Compilation", false)]

/-- `PipelineResult`, restricted to the fields the run computes (the id and
timestamp strings, which are raw environment reads, are omitted). -/
structure PipelineResult where
  overall_success : Bool
  phases : List PhaseResult
  evidence_items_count : Nat
  readiness_score : ℚ
  degradation_summary : List String
deriving DecidableEq

/-- A pipeline run together with the files it wrote under the project
folder. -/
structure PipelineOutcome where
  result : PipelineResult
  writes : List String
deriving DecidableEq

/-- The phase loop of `run_autonomous_pipeline`: execute the phases in
order, accumulate results and degradation reasons, clear the
overall-success flag on a failed non-degraded phase, and stop (with the
flag cleared) when a critical phase fails. -/
def phasesLoop (exec : Nat → PhaseExec) :
    List (String × String × String × Bool) → Nat → Bool →
    List PhaseResult × List String × Bool
  | [], _, overall => ([], [], overall)
  | (_, phase_id, phase_name, is_critical) :: rest, i, overall =>
    let r := execute_phase phase_id phase_name (exec i)
    if !r.success && is_critical then ([r], r.degradation_reasons, false)
    else
      let overall2 := if !r.success && !r.degraded then false else overall
      let (prs, degs, ovf) := phasesLoop exec rest (i + 1) overall2
      (r :: prs, r.degradation_reasons ++ degs, ovf)

/-- `run_autonomous_pipeline`.  The child behaviours are given by `exec`
(per phase index); the post-run evidence count and readiness score, which
are reads of other files, are given as inputs.  Returns the final
`PipelineResult` and the files written under the project folder. -/
def run_autonomous_pipeline (projectExists dryRun : Bool) (exec : Nat → PhaseExec)
    (evidenceCount : Nat) (readiness : ℚ) : PipelineOutcome :=
  if projectExists = false then
    ⟨⟨false, [], 0, 0, []⟩, []⟩
  else if dryRun = true then
    ⟨⟨true, [], 0, 0, []⟩, []⟩
  else
    let (phases, degs, overall) := phasesLoop exec PIPELINE_PHASES 0 true
    let successful_phases := (phases.filter (fun p => p.success)).length
    let total_phases := phases.length
    let degraded_phases := (phases.filter (fun p => p.degraded)).length
    let overall2 : Bool :=
      if successful_phases = total_phases ∧ degraded_phases = 0 then true
      else if successful_phases > 0 then decide (successful_phases ≥ total_phases / 2)
      else overall
    ⟨⟨overall2, phases, evidenceCount, readiness, degs⟩, ["autonomous_run_result.json"]⟩

/-! ## SHA-256

`EdisonClient.search_literature` fingerprints each request with
`hashlib.sha256(full_query.encode()).hexdigest()[:16]`.  The hash is
implemented here over `Nat` with explicit reduction modulo `2 ^ 32`. -/

/-- Reduce modulo `2 ^ 32`. -/
def mask32 (x : Nat) : Nat := x % 4294967296

/-- 32-bit right rotation. -/
def rotr (n x : Nat) : Nat := mask32 ((x >>> n) ||| (x <<< (32 - n)))

/-- 32-bit bitwise complement (on inputs below `2 ^ 32`). -/
def bnot32 (x : Nat) : Nat := 4294967295 - x

/-- UTF-8 encoding of one character (`str.encode()`). -/
def utf8Char (c : Char) : List Nat :=
  let n := c.toNat
  if n < 128 then [n]
  else if n < 2048 then [192 + n / 64, 128 + n % 64]
  else if n < 65536 then [224 + n / 4096, 128 + (n / 64) % 64, 128 + n % 64]
  else [240 + n / 262144, 128 + (n / 4096) % 64, 128 + (n / 64) % 64, 128 + n % 64]

/-- UTF-8 bytes of a string. -/
def utf8Bytes (s : String) : List Nat := (s.data.map utf8Char).flatten

/-- Big-endian bytes of a 64-bit length. -/
def be64 (n : Nat) : List Nat :=
  [n >>> 56 % 256, n >>> 48 % 256, n >>> 40 % 256, n >>> 32 % 256,
   n >>> 24 % 256, n >>> 16 % 256, n >>> 8 % 256, n % 256]

/-- SHA-256 message padding. -/
def shaPad (msg : List Nat) : List Nat :=
  let L := msg.length
  let k := (119 - L % 64) % 64
  msg ++ [128] ++ List.replicate k 0 ++ be64 (8 * L)

/-- Split into 64-byte blocks. -/
def chunks64 : Nat → List Nat → List (List Nat)
  | 0, _ => []
  | _, [] => []
  | fuel + 1, l => l.take 64 :: chunks64 fuel (l.drop 64)

/-- Big-endian 32-bit words of a block. -/
def blockWords : Nat → List Nat → List Nat
  | 0, _ => []
  | _, [] => []
  | fuel + 1, l =>
    match l with
    | b0 :: b1 :: b2 :: b3 :: rest =>
      (16777216 * b0 + 65536 * b1 + 256 * b2 + b3) :: blockWords fuel rest
    | _ => []

/-- The round constants `K` of SHA-256 (decimal). -/
def shaK : List Nat :=
  [1116352408, 1899447441, 3049323471, 3921009573, 961987163,
   1508970993, 2453635748, 2870763221, 3624381080, 310598401,
   607225278, 1426881987, 1925078388, 2162078206, 2614888103,
   3248222580, 3835390401, 4022224774, 264347078, 604807628,
   770255983, 1249150122, 1555081692, 1996064986, 2554220882,
   2821834349, 2952996808, 3210313671, 3336571891, 3584528711,
   113926993, 338241895, 666307205, 773529912, 1294757372,
   1396182291, 1695183700, 1986661051, 2177026350, 2456956037,
   2730485921, 2820302411, 3259730800, 3345764771, 3516065817,
   3600352804, 4094571909, 275423344, 430227734, 506948616,
   659060556, 883997877, 958139571, 1322822218, 1537002063,
   1747873779, 1955562222, 2024104815, 2227730452, 2361852424,
   2428436474, 2756734187, 3204031479, 3329325298]

/-- Message-schedule extension: from `W[0..15]` to `W[0..63]`. -/
def shaSchedule : Nat → List Nat → List Nat
  | 0, w => w
  | fuel + 1, w =>
    let t := w.length
    let w2 := (w.get? (t - 2)).getD 0
    let w7 := (w.get? (t - 7)).getD 0
    let w15 := (w.get? (t - 15)).getD 0
    let w16 := (w.get? (t - 16)).getD 0
    let s0 := (rotr 7 w15) ^^^ (rotr 18 w15) ^^^ (w15 >>> 3)
    let s1 := (rotr 17 w2) ^^^ (rotr 19 w2) ^^^ (w2 >>> 10)
    shaSchedule fuel (w ++ [mask32 (s1 + w7 + s0 + w16)])

/-- The SHA-256 working state. -/
structure ShaState where
  a : Nat
  b : Nat
  c : Nat
  d : Nat
  e : Nat
  f : Nat
  g : Nat
  h : Nat

/-- One compression round. -/
def shaRound (st : ShaState) (kw : Nat × Nat) : ShaState :=
  let S1 := (rotr 6 st.e) ^^^ (rotr 11 st.e) ^^^ (rotr 25 st.e)
  let ch := (st.e &&& st.f) ^^^ (bnot32 st.e &&& st.g)
  let t1 := mask32 (st.h + S1 + ch + kw.1 + kw.2)
  let S0 := (rotr 2 st.a) ^^^ (rotr 13 st.a) ^^^ (rotr 22 st.a)
  let mj := (st.a &&& st.b) ^^^ (st.a &&& st.c) ^^^ (st.b &&& st.c)
  let t2 := mask32 (S0 + mj)
  ⟨mask32 (t1 + t2), st.a, st.b, st.c, mask32 (st.d + t1), st.e, st.f, st.g⟩

/-- Process one 64-byte block. -/
def shaBlock (h : List Nat) (block : List Nat) : List Nat :=
  let w := shaSchedule 48 (blockWords 16 block)
  let init : ShaState :=
    ⟨(h.get? 0).getD 0, (h.get? 1).getD 0, (h.get? 2).getD 0, (h.get? 3).getD 0,
     (h.get? 4).getD 0, (h.get? 5).getD 0, (h.get? 6).getD 0, (h.get? 7).getD 0⟩
  let st := (shaK.zip w).foldl shaRound init
  [mask32 ((h.get? 0).getD 0 + st.a), mask32 ((h.get? 1).getD 0 + st.b),
   mask32 ((h.get? 2).getD 0 + st.c), mask32 ((h.get? 3).getD 0 + st.d),
   mask32 ((h.get? 4).getD 0 + st.e), mask32 ((h.get? 5).getD 0 + st.f),
   mask32 ((h.get? 6).getD 0 + st.g), mask32 ((h.get? 7).getD 0 + st.h)]

/-- SHA-256 of a byte list, as eight 32-bit words. -/
def sha256Words (msg : List Nat) : List Nat :=
  let padded := shaPad msg
  (chunks64 (padded.length / 64 + 1) padded).foldl shaBlock
    [1779033703, 3144134277, 1013904242, 2773480762,
     1359893119, 2600822924, 528734635, 1541459225]

/-- One hexadecimal digit. -/
def hexChar (n : Nat) : Char :=
  if n < 10 then Char.ofNat (48 + n) else Char.ofNat (87 + n)

/-- Eight hex digits of one 32-bit word. -/
def hexWord (w : Nat) : List Char :=
  [hexChar (w >>> 28 % 16), hexChar (w >>> 24 % 16), hexChar (w >>> 20 % 16),
   hexChar (w >>> 16 % 16), hexChar (w >>> 12 % 16), hexChar (w >>> 8 % 16),
   hexChar (w >>> 4 % 16), hexChar (w % 16)]

/-- `hashlib.sha256(s.encode()).hexdigest()`. -/
def sha256Hex (s : String) : String :=
  String.mk (((sha256Words (utf8Bytes s)).map hexWord).flatten)

/-- The request fingerprint:
`hashlib.sha256(full_query.encode()).hexdigest()[:16]`. -/
def fingerprint (s : String) : String := (sha256Hex s).take 16

/-! ## The Edison literature client (`src/llm/edison_client.py`)

`search_literature` deduplicates requests through the process-wide map
`_active_requests : query_hash → start_time`.  Wall-clock reads
(`time.time()`) and the provider's behaviour are supplied as explicit
inputs; the mutex only serialises map access and is invisible in this
single-call model. -/

/-- `JobStatus`. -/
inductive JobStatus where
  | pending : JobStatus
  | processing : JobStatus
  | completed : JobStatus
  | failed : JobStatus
  | timeout : JobStatus
deriving DecidableEq, Repr

/-- `Citation` (the dataclass). -/
structure Citation where
  title : String
  authors : List String
  year : Int
  journal : Option String
  doi : Option String
  url : Option String
  abstract : Option String
  relevance_score : Option ℚ
  paper_id : Option String
  citations : Option Int
deriving DecidableEq

/-- `LiteratureResult` (the dataclass). -/
structure LiteratureResult where
  query : String
  response : String
  citations : List Citation
  total_papers_searched : Nat
  processing_time : ℚ
  job_id : Option String
  status : JobStatus
  error : Option String
deriving DecidableEq

/-- What the provider call (`arun_tasks_until_done`, behind the retry
decorator) produced: a terminal response, already reduced to the answer
text, parsed citations and job id, or a raised exception's message.
Citation parsing from the raw response is outside this embedding. -/
inductive ProviderOutcome where
  | completedJob : String → List Citation → Option String → ProviderOutcome
  | errored : String → ProviderOutcome
deriving DecidableEq

/-- `_active_requests`: fingerprint → submission/completion time. -/
def DedupState := List (String × ℚ)

/-- First-match lookup in the dedup map. -/
def lookupEntry (h : String) : List (String × ℚ) → Option ℚ
  | [] => none
  | (k, t) :: rest => if k = h then some t else lookupEntry h rest

/-- Python-dict update: replace in place when present, append otherwise. -/
def setEntry (h : String) (t : ℚ) (m : List (String × ℚ)) : List (String × ℚ) :=
  if m.any (fun p => p.1 = h) then m.map (fun p => if p.1 = h then (h, t) else p)
  else m ++ [(h, t)]

/-- The opportunistic reap: drop entries older than 30 minutes
(`current_time - t > 1800`). -/
def reapExpired (now : ℚ) (m : List (String × ℚ)) : List (String × ℚ) :=
  m.filter (fun p => ¬ (now - p.2 > 1800))

/-- The full query submitted to the provider
(`f"{query}\n\nContext:\n{context}"` when a context is given). -/
def fullQuery (query : String) (context : Option String) : String :=
  match context with
  | none => query
  | some c => query ++ "\n\nContext:\n" ++ c

/-- `f"{elapsed:.1f}"`: one-decimal rendering of the elapsed seconds.  No
claim depends on the rendering itself. -/
def fmtOneDecimal (q : ℚ) : String :=
  let n : ℤ := round (q * 10)
  toString (n / 10) ++ "." ++ toString ((n % 10).natAbs)

/-- One `search_literature` call: the returned result, whether a new
provider submission happened, and the dedup map after the call. -/
structure SearchOutcome where
  result : LiteratureResult
  submitted : Bool
  finalState : List (String × ℚ)

/-- `EdisonClient.search_literature`.  `available`/`initError` reflect
construction (`self._client`, `self._init_error`); `st` is the dedup map;
`now` is `time.time()` at the dedup check and `finishTime` at completion;
`provider` is the provider call's behaviour.  A duplicate fingerprint
found in the map (after the reap) short-circuits to a FAILED result
without submitting; otherwise the request is registered, submitted, and
its map entry refreshed to the completion time in the `finally` block. -/
def search_literature (available : Bool) (initError : Option String)
    (query : String) (context : Option String) (st : List (String × ℚ))
    (now finishTime : ℚ) (provider : ProviderOutcome) : SearchOutcome :=
  if available = false then
    { result :=
        { query := query, response := "", citations := [], total_papers_searched := 0,
          processing_time := 0, job_id := none, status := .failed,
          error := some (initError.getD "Edison API client not configured") }
      submitted := false
      finalState := st }
  else
    let query_hash := fingerprint (fullQuery query context)
    let st1 := reapExpired now st
    match lookupEntry query_hash st1 with
    | some t =>
      let elapsed := now - t
      { result :=
          { query := query, response := "", citations := [], total_papers_searched := 0,
            processing_time := 0, job_id := none, status := .failed,
            error := some ("Duplicate request blocked. A similar query was submitted "
              ++ fmtOneDecimal elapsed ++ "s ago.") }
        submitted := false
        finalState := st1 }
    | none =>
      let st2 := setEntry query_hash now st1
      let result : LiteratureResult :=
        match provider with
        | .completedJob answer citations job_id =>
          { query := query, response := answer, citations := citations,
            total_papers_searched := citations.length,
            processing_time := finishTime - now, job_id := job_id,
            status := .completed, error := none }
        | .errored msg =>
          { query := query, response := "", citations := [], total_papers_searched := 0,
            processing_time := finishTime - now, job_id := none,
            status := .failed, error := some msg }
      let st3 :=
        if (lookupEntry query_hash st2).isSome then setEntry query_hash finishTime st2
        else st2
      { result := result, submitted := true, finalState := st3 }

/-! ## Helper lemmas about the phase loop -/

/-- The loop executes at least one phase of a non-empty table. -/
lemma phasesLoop_cons_ne_nil (exec : Nat → PhaseExec) (e : String × String × String × Bool)
    (rest : List (String × String × String × Bool)) (i : Nat) (ov : Bool) :
    (phasesLoop exec (e :: rest) i ov).1 ≠ [] := by
  obtain ⟨scr, pid, pname, crit⟩ := e
  simp only [phasesLoop]
  split
  · simp
  · simp

/-- When the table's first phase is critical, a loop that keeps the
overall-success flag set must have executed a successful phase. -/
lemma phasesLoop_crit_head_success (exec : Nat → PhaseExec) (scr pid pname : String)
    (rest : List (String × String × String × Bool)) (i : Nat) (ov : Bool)
    (h : (phasesLoop exec ((scr, pid, pname, true) :: rest) i ov).2.2 = true) :
    0 < ((phasesLoop exec ((scr, pid, pname, true) :: rest) i ov).1.filter
      (fun p => p.success)).length := by
  simp only [phasesLoop] at h ⊢
  cases hs : (execute_phase pid pname (exec i)).success
  · simp [hs] at h
  · simp [hs, List.filter_cons]

/-- The normal path of `run_autonomous_pipeline`, spelled out. -/
lemma run_pipeline_phases (exec : Nat → PhaseExec) (ev : Nat) (rd : ℚ) :
    (run_autonomous_pipeline true false exec ev rd).result.phases =
      (phasesLoop exec PIPELINE_PHASES 0 true).1 := rfl

/-- The final `overall_success` computation of `run_autonomous_pipeline`,
spelled out over the loop's output. -/
lemma run_pipeline_overall (exec : Nat → PhaseExec) (ev : Nat) (rd : ℚ) :
    (run_autonomous_pipeline true false exec ev rd).result.overall_success =
      (if ((phasesLoop exec PIPELINE_PHASES 0 true).1.filter (fun p => p.success)).length =
            (phasesLoop exec PIPELINE_PHASES 0 true).1.length ∧
          ((phasesLoop exec PIPELINE_PHASES 0 true).1.filter (fun p => p.degraded)).length = 0
        then true
        else if ((phasesLoop exec PIPELINE_PHASES 0 true).1.filter (fun p => p.success)).length > 0
        then decide (((phasesLoop exec PIPELINE_PHASES 0 true).1.filter
            (fun p => p.success)).length ≥ (phasesLoop exec PIPELINE_PHASES 0 true).1.length / 2)
        else (phasesLoop exec PIPELINE_PHASES 0 true).2.2) := rfl

/-- `PIPELINE_PHASES` starts with the critical intake phase. -/
lemma pipeline_phases_head :
    PIPELINE_PHASES = ("run_workflow.py", "phase_1", "Research Workflow (Intake)", true) ::
      [("run_literature_workflow.py", "phase_2", "Literature Workflow", false),
       ("run_gap_resolution.py", "phase_3", "Gap Resolution Workflow", false),
       ("run_writing_review_stage.py", "phase_4", "Writing Review Stage", false),
       ("run_paper_assembly.py", "phase_5a", "Paper Assembly", false),
       ("run_paper_compile.py", "phase_5b", "Paper Compilation", false)] := rfl

/-! ## C1: `overall_success` versus per-phase success -/

/-- C1 (counterexample): a run in which the four initial phases succeed and
the two non-critical final phases fail (cleanly, with no monitored errors)
ends with `overall_success=true` — the majority rule `4 ≥ 6 / 2` applies —
while two `PhaseResult`s have `success=false`.  So `overall_success=true`
does not imply that every phase succeeded, refuting the claim as stated. -/
theorem overall_success_majority_counterexample :
    ¬ (((run_autonomous_pipeline true false
          (fun i => if i < 4 then (⟨true, .exited 0 ⟨0, 0, 0, []⟩, 0⟩ : PhaseExec)
            else ⟨true, .exited 1 ⟨0, 0, 0, []⟩, 0⟩) 0 0).result.overall_success = true) →
        ∀ p ∈ (run_autonomous_pipeline true false
          (fun i => if i < 4 then (⟨true, .exited 0 ⟨0, 0, 0, []⟩, 0⟩ : PhaseExec)
            else ⟨true, .exited 1 ⟨0, 0, 0, []⟩, 0⟩) 0 0).result.phases,
          p.success = true) := by
  decide

/-- C1 (amended): if a completed pipeline run reports
`overall_success=true`, then at least one phase succeeded and at least
half (integer division) of the executed phases succeeded; a failed
non-critical phase may coexist with `overall_success=true`.  (The
orchestrator itself evaluates no gates; gates run inside phase children
and surface only through exit codes.) -/
theorem overall_success_of_true (exec : Nat → PhaseExec) (ev : Nat) (rd : ℚ)
    (h : (run_autonomous_pipeline true false exec ev rd).result.overall_success = true) :
    0 < ((run_autonomous_pipeline true false exec ev rd).result.phases.filter
        (fun p => p.success)).length ∧
      (run_autonomous_pipeline true false exec ev rd).result.phases.length / 2 ≤
        ((run_autonomous_pipeline true false exec ev rd).result.phases.filter
          (fun p => p.success)).length := by
  rw [run_pipeline_overall] at h
  rw [run_pipeline_phases]
  split at h
  · rename_i hc
    have hne : (phasesLoop exec PIPELINE_PHASES 0 true).1 ≠ [] := by
      rw [pipeline_phases_head]
      exact phasesLoop_cons_ne_nil _ _ _ _ _
    have hlen : 0 < (phasesLoop exec PIPELINE_PHASES 0 true).1.length :=
      List.length_pos.mpr hne
    rw [hc.1]
    exact ⟨hlen, Nat.div_le_self _ _⟩
  · split at h
    · rename_i _ hpos
      exact ⟨hpos, of_decide_eq_true h⟩
    · rename_i _ hnpos
      exfalso
      apply hnpos
      have := phasesLoop_crit_head_success exec "run_workflow.py" "phase_1"
        "Research Workflow (Intake)"
        [("run_literature_workflow.py", "phase_2", "Literature Workflow", false),
         ("run_gap_resolution.py", "phase_3", "Gap Resolution Workflow", false),
         ("run_writing_review_stage.py", "phase_4", "Writing Review Stage", false),
         ("run_paper_assembly.py", "phase_5a", "Paper Assembly", false),
         ("run_paper_compile.py", "phase_5b", "Paper Compilation", false)] 0 true
      rw [← pipeline_phases_head] at this
      exact this h

/-- C1 (witness): the amended theorem applied to an all-successful run. -/
theorem overall_success_of_true_witness :
    0 < (((run_autonomous_pipeline true false
        (fun _ => (⟨true, .exited 0 ⟨0, 0, 0, []⟩, 0⟩ : PhaseExec)) 0 0).result.phases.filter
        (fun p => p.success)).length) := by
  exact (overall_success_of_true (fun _ => (⟨true, .exited 0 ⟨0, 0, 0, []⟩, 0⟩ : PhaseExec))
    0 0 (by decide)).1

/-! ## C2: files written by a terminal run -/

/-- C2 (counterexample): a run whose critical intake phase fails early
still reaches the terminal reporting step and writes
`autonomous_run_result.json`, but no `degradation_summary.json` exists
under the project folder — neither at `outputs/degradation_summary.json`
nor at the project root — so the claim's second conjunct fails. -/
theorem degradation_summary_file_counterexample :
    ((run_autonomous_pipeline true false
        (fun _ => (⟨true, .exited 1 ⟨1, 0, 0, []⟩, 0⟩ : PhaseExec)) 0 0).result.overall_success
      = false) ∧
    ((run_autonomous_pipeline true false
        (fun _ => (⟨true, .exited 1 ⟨1, 0, 0, []⟩, 0⟩ : PhaseExec)) 0 0).result.phases.length
      = 1) ∧
    ("autonomous_run_result.json" ∈ (run_autonomous_pipeline true false
        (fun _ => (⟨true, .exited 1 ⟨1, 0, 0, []⟩, 0⟩ : PhaseExec)) 0 0).writes) ∧
    ¬ ("outputs/degradation_summary.json" ∈ (run_autonomous_pipeline true false
        (fun _ => (⟨true, .exited 1 ⟨1, 0, 0, []⟩, 0⟩ : PhaseExec)) 0 0).writes) ∧
    ¬ ("degradation_summary.json" ∈ (run_autonomous_pipeline true false
        (fun _ => (⟨true, .exited 1 ⟨1, 0, 0, []⟩, 0⟩ : PhaseExec)) 0 0).writes) := by
  decide

/-- C2 (amended): every run that executes its phase loop — including a run
in which the critical intake phase fails early — writes exactly
`autonomous_run_result.json` under the project folder; the degradation
data lives in that file's `degradation_summary` field, and this
orchestrator writes no separate `degradation_summary.json`. -/
theorem run_result_writes (exec : Nat → PhaseExec) (ev : Nat) (rd : ℚ) :
    (run_autonomous_pipeline true false exec ev rd).writes =
      ["autonomous_run_result.json"] := rfl

/-! ## C7: the `degraded` flag of a phase result -/

/-- C7 (counterexample): the timeout path returns `success=false` and
`error_count=1` but `degraded=false` (the dataclass default), so
`degraded` is not `true` exactly when a degradation reason was observed or
`success=false` with a non-zero error count. -/
theorem phase_degraded_flag_counterexample :
    ¬ ((execute_phase "phase_2" "Literature Workflow"
          ⟨true, .timedOut, 0⟩).degraded = true ↔
        ((execute_phase "phase_2" "Literature Workflow"
            ⟨true, .timedOut, 0⟩).degradation_reasons ≠ [] ∨
          ((execute_phase "phase_2" "Literature Workflow"
              ⟨true, .timedOut, 0⟩).success = false ∧
            (execute_phase "phase_2" "Literature Workflow"
              ⟨true, .timedOut, 0⟩).error_count ≠ 0))) := by
  decide

/-- C7 (amended): on the normal path (the child exited and the monitor was
read back), `degraded=true` exactly when a degradation reason was observed
or `success=false` with a non-zero error count; the missing-script,
timeout and launch-failure paths return `success=false` with
`error_count=1` but leave `degraded` at its default `false`. -/
theorem phase_degraded_flag_spec (pid pname : String) (px : PhaseExec) :
    (∀ code counts, px.scriptExists = true → px.outcome = .exited code counts →
      ((execute_phase pid pname px).degraded = true ↔
        (counts.reasons ≠ [] ∨
          ((execute_phase pid pname px).success = false ∧
            (execute_phase pid pname px).error_count ≠ 0)))) ∧
    ((px.scriptExists = false ∨ px.outcome = .timedOut ∨ px.outcome = .launchFailed) →
      (execute_phase pid pname px).success = false ∧
        (execute_phase pid pname px).error_count = 1 ∧
        (execute_phase pid pname px).degraded = false) := by
  obtain ⟨se, oc, tm⟩ := px
  constructor
  · intro code counts hse hoc
    subst hse
    cases hoc
    simp only [execute_phase]
    cases hc : code == 0 <;>
      simp [hc, List.isEmpty_iff, Nat.pos_iff_ne_zero, or_comm, and_comm]
  · intro hcase
    rcases hcase with hse | hoc | hoc
    · subst hse
      simp [execute_phase]
    · subst hoc
      cases se <;> simp [execute_phase]
    · subst hoc
      cases se <;> simp [execute_phase]

/-- C7 (witness): the amended theorem at a child that exited non-zero with
two monitored errors and no degradation reason — the normal-path
biconditional makes it degraded. -/
theorem phase_degraded_flag_spec_witness :
    (execute_phase "phase_3" "Gap Resolution Workflow"
      ⟨true, .exited 1 ⟨2, 0, 0, []⟩, 0⟩).degraded = true := by
  exact ((phase_degraded_flag_spec "phase_3" "Gap Resolution Workflow"
      ⟨true, .exited 1 ⟨2, 0, 0, []⟩, 0⟩).1 1 ⟨2, 0, 0, []⟩ rfl rfl).mpr
    (Or.inr ⟨by decide, by decide⟩)

/-! ## C3: gate actions and the `ok` flag -/

/-- C3 (confirmed): the gate returns `action=disabled` when disabled; when
enabled it returns `action=pass` iff no checked claim failed (including
when no claim was applicable), `action=block` iff some checked claim
failed and `on_failure=block`, `action=downgrade` iff some checked claim
failed and `on_failure=downgrade`; and in every case `ok=true` iff the
action is `pass`, `downgrade` or `disabled`. -/
theorem gate_action_ok_spec (pf : ProjectState) (cfg : CitationAccuracyGateConfig) :
    (cfg.enabled = false →
      (check_citation_accuracy_gate pf cfg).result.action = .disabled) ∧
    (cfg.enabled = true →
      (((check_citation_accuracy_gate pf cfg).result.action = .pass ↔
          (check_citation_accuracy_gate pf cfg).result.failed_claims_total = 0) ∧
        ((check_citation_accuracy_gate pf cfg).result.action = .block ↔
          0 < (check_citation_accuracy_gate pf cfg).result.failed_claims_total ∧
            cfg.on_failure = .block) ∧
        ((check_citation_accuracy_gate pf cfg).result.action = .downgrade ↔
          0 < (check_citation_accuracy_gate pf cfg).result.failed_claims_total ∧
            cfg.on_failure = .downgrade))) ∧
    ((check_citation_accuracy_gate pf cfg).result.ok = true ↔
      ((check_citation_accuracy_gate pf cfg).result.action = .pass ∨
        (check_citation_accuracy_gate pf cfg).result.action = .downgrade ∨
        (check_citation_accuracy_gate pf cfg).result.action = .disabled)) := by
  cases he : cfg.enabled
  · simp [check_citation_accuracy_gate, he]
  · simp only [check_citation_accuracy_gate, he, Bool.true_eq_false, if_false, ite_false]
    rcases Nat.eq_zero_or_pos ((load_source_backed_claims pf.claimsFile).1.foldl
        (processClaim cfg (load_evidence_map pf).1) ⟨[], 0, 0, 0⟩).failed with hn | hn
    · cases ho : cfg.on_failure <;> simp [hn, ho]
    · cases ho : cfg.on_failure <;>
        simp [hn, ho, Nat.pos_iff_ne_zero.mp hn, Nat.not_eq_zero_of_lt hn]

/-- C3 (witness): the specification applied to the empty, enabled project
state, whose action is `pass` with zero failures. -/
theorem gate_action_ok_spec_witness :
    (check_citation_accuracy_gate ⟨.absent, []⟩
        ⟨true, .block, 18/100, 6/100, false, 20/100, false, 5⟩).result.action = .pass := by
  exact ((gate_action_ok_spec ⟨.absent, []⟩
      ⟨true, .block, 18/100, 6/100, false, 20/100, false, 5⟩).2.1 rfl).1.mpr (by decide)

/-! ## C8: gate report files and trace-span attributes -/

/-- C8 (counterexample): the gate evaluation performs no file write at all;
in particular it does not write its `GateResult` to
`outputs/gates/citation_accuracy.json`. -/
theorem gate_file_write_counterexample :
    ¬ ∃ w ∈ (check_citation_accuracy_gate ⟨.absent, []⟩
        ⟨true, .block, 18/100, 6/100, false, 20/100, false, 5⟩).fileWrites,
      w = "outputs/gates/citation_accuracy.json" := by
  decide

/-- C8 (amended): the gate writes no gate-report file; it sets the
`gate.name`, `gate.enabled`, `gate.ok` and `gate.action` attributes (a
summary of the `GateResult`, not all of it) on the current trace span,
plus the claim counters when the gate is enabled. -/
theorem gate_span_attributes (pf : ProjectState) (cfg : CitationAccuracyGateConfig) :
    (check_citation_accuracy_gate pf cfg).fileWrites = [] ∧
    (("gate.name", AttrVal.aStr "citation_accuracy") ∈
      (check_citation_accuracy_gate pf cfg).spanAttrs) ∧
    (("gate.enabled", AttrVal.aBool (check_citation_accuracy_gate pf cfg).result.enabled) ∈
      (check_citation_accuracy_gate pf cfg).spanAttrs) ∧
    (("gate.ok", AttrVal.aBool (check_citation_accuracy_gate pf cfg).result.ok) ∈
      (check_citation_accuracy_gate pf cfg).spanAttrs) ∧
    (("gate.action",
        AttrVal.aStr (check_citation_accuracy_gate pf cfg).result.action.text) ∈
      (check_citation_accuracy_gate pf cfg).spanAttrs) ∧
    (cfg.enabled = true →
      (("citation_accuracy.checked_claims_total",
          AttrVal.aInt (check_citation_accuracy_gate pf cfg).result.checked_claims_total) ∈
        (check_citation_accuracy_gate pf cfg).spanAttrs) ∧
      (("citation_accuracy.failed_claims_total",
          AttrVal.aInt (check_citation_accuracy_gate pf cfg).result.failed_claims_total) ∈
        (check_citation_accuracy_gate pf cfg).spanAttrs) ∧
      (("citation_accuracy.skipped_missing_evidence_total",
          AttrVal.aInt
            (check_citation_accuracy_gate pf cfg).result.skipped_missing_evidence_total) ∈
        (check_citation_accuracy_gate pf cfg).spanAttrs)) := by
  cases he : cfg.enabled <;> simp [check_citation_accuracy_gate, he, GateAction.text]

/-- C8 (witness): the amended theorem at a concrete enabled configuration. -/
theorem gate_span_attributes_witness :
    ("citation_accuracy.failed_claims_total",
        AttrVal.aInt (check_citation_accuracy_gate ⟨.absent, []⟩
          ⟨true, .block, 18/100, 6/100, false, 20/100, false, 5⟩).result.failed_claims_total) ∈
      (check_citation_accuracy_gate ⟨.absent, []⟩
        ⟨true, .block, 18/100, 6/100, false, 20/100, false, 5⟩).spanAttrs := by
  exact ((gate_span_attributes ⟨.absent, []⟩
      ⟨true, .block, 18/100, 6/100, false, 20/100, false, 5⟩).2.2.2.2.2 rfl).2.1

/-! ## C9: claims with unresolved evidence ids are skipped, never failed -/

/-- A claim with a non-empty `evidence_ids` list in which some id does not
resolve is recorded as skipped (`checked=False, ok=True`), without
touching the checked or failed counters. -/
lemma processClaim_unresolved (cfg : CitationAccuracyGateConfig)
    (emap : List (String × JValue)) (acc : ClaimsAcc) (claim : JValue)
    (h1 : strListOf (getField claim "evidence_ids") ≠ [])
    (h2 : ∃ id ∈ strListOf (getField claim "evidence_ids"), dictGet emap id = none) :
    (processClaim cfg emap acc claim).skipped = acc.skipped + 1 ∧
    (processClaim cfg emap acc claim).failed = acc.failed ∧
    (processClaim cfg emap acc claim).checked = acc.checked ∧
    ∃ rep, (processClaim cfg emap acc claim).reports = acc.reports ++ [rep] ∧
      rep.checked = false ∧ rep.ok = true := by
  have hne : (strListOf (getField claim "evidence_ids")).isEmpty = false := by
    simpa [List.isEmpty_iff] using h1
  have hmiss : (strListOf (getField claim "evidence_ids")).any
      (fun ev_id => (dictGet emap ev_id).isNone) = true := by
    rcases h2 with ⟨id, hid, hnone⟩
    exact List.any_eq_true.mpr ⟨id, hid, by simp [hnone]⟩
  refine ⟨?_, ?_, ?_, ?_⟩ <;>
    simp only [processClaim, hne, Bool.false_eq_true, if_false, ite_false, hmiss,
      Bool.true_or, if_true, ite_true]
  exact ⟨_, rfl, rfl, rfl⟩

/-- A claim with no usable `evidence_ids` is likewise skipped. -/
lemma processClaim_empty_ids (cfg : CitationAccuracyGateConfig)
    (emap : List (String × JValue)) (acc : ClaimsAcc) (claim : JValue)
    (h : strListOf (getField claim "evidence_ids") = []) :
    (processClaim cfg emap acc claim).failed = acc.failed ∧
    (processClaim cfg emap acc claim).checked = acc.checked := by
  simp [processClaim, h]

/-- Folding the claims loop over claims that are all skipped leaves the
failed counter unchanged. -/
lemma foldl_allskip (cfg : CitationAccuracyGateConfig) (emap : List (String × JValue)) :
    ∀ (l : List JValue) (acc : ClaimsAcc),
      (∀ c ∈ l, strListOf (getField c "evidence_ids") = [] ∨
        ∃ id ∈ strListOf (getField c "evidence_ids"), dictGet emap id = none) →
      (l.foldl (processClaim cfg emap) acc).failed = acc.failed := by
  intro l
  induction l with
  | nil => intro acc _; rfl
  | cons c rest ih =>
    intro acc hall
    have hc := hall c (List.mem_cons_self c rest)
    have hrest : ∀ x ∈ rest, strListOf (getField x "evidence_ids") = [] ∨
        ∃ id ∈ strListOf (getField x "evidence_ids"), dictGet emap id = none :=
      fun x hx => hall x (List.mem_cons_of_mem _ hx)
    rw [List.foldl_cons, ih _ hrest]
    rcases hc with hc | hc
    · exact (processClaim_empty_ids cfg emap acc c hc).1
    · rcases Decidable.em (strListOf (getField c "evidence_ids") = []) with hceq | hcne
      · exact (processClaim_empty_ids cfg emap acc c hceq).1
      · exact (processClaim_unresolved cfg emap acc c hcne hc).2.1

/-- C9 (confirmed): a `source_backed` claim whose `evidence_ids` list is
non-empty but contains an id that does not resolve to a loaded evidence
item is counted as skipped, its report has `checked=false` and `ok=true`,
and it never contributes to `failed_claims_total`; when every claim is of
that shape (or has no usable ids at all) the enabled gate returns
`action=pass` with `ok=true`. -/
theorem unresolved_evidence_skipped :
    (∀ (cfg : CitationAccuracyGateConfig) (emap : List (String × JValue))
        (acc : ClaimsAcc) (claim : JValue),
      strListOf (getField claim "evidence_ids") ≠ [] →
      (∃ id ∈ strListOf (getField claim "evidence_ids"), dictGet emap id = none) →
      (processClaim cfg emap acc claim).skipped = acc.skipped + 1 ∧
      (processClaim cfg emap acc claim).failed = acc.failed ∧
      (processClaim cfg emap acc claim).checked = acc.checked ∧
      ∃ rep, (processClaim cfg emap acc claim).reports = acc.reports ++ [rep] ∧
        rep.checked = false ∧ rep.ok = true) ∧
    (∀ (pf : ProjectState) (cfg : CitationAccuracyGateConfig),
      cfg.enabled = true →
      (∀ c ∈ (load_source_backed_claims pf.claimsFile).1,
        strListOf (getField c "evidence_ids") = [] ∨
        ∃ id ∈ strListOf (getField c "evidence_ids"),
          dictGet (load_evidence_map pf).1 id = none) →
      (check_citation_accuracy_gate pf cfg).result.failed_claims_total = 0 ∧
      (check_citation_accuracy_gate pf cfg).result.action = .pass ∧
      (check_citation_accuracy_gate pf cfg).result.ok = true) := by
  constructor
  · exact processClaim_unresolved
  · intro pf cfg he hall
    have hfailed : ((load_source_backed_claims pf.claimsFile).1.foldl
        (processClaim cfg (load_evidence_map pf).1) ⟨[], 0, 0, 0⟩).failed = 0 :=
      foldl_allskip cfg (load_evidence_map pf).1 _ ⟨[], 0, 0, 0⟩ hall
    simp [check_citation_accuracy_gate, he, hfailed]

/-- C9 (witness): the per-claim part of the theorem at a concrete claim
whose only evidence id resolves to nothing. -/
theorem unresolved_evidence_skipped_witness :
    (processClaim ⟨true, .block, 18/100, 6/100, false, 20/100, false, 5⟩ []
        ⟨[], 0, 0, 0⟩
        (.jobj [("claim_id", .jstr "c1"), ("evidence_ids", .jarr [.jstr "missing"])])).skipped
      = 1 := by
  exact (unresolved_evidence_skipped.1 ⟨true, .block, 18/100, 6/100, false, 20/100, false, 5⟩
    [] ⟨[], 0, 0, 0⟩ (.jobj [("claim_id", .jstr "c1"), ("evidence_ids", .jarr [.jstr "missing"])])
    (by decide) ⟨"missing", by decide, rfl⟩).1

/-! ## C10: tolerance of a missing or malformed claims file -/

/-- C10 (confirmed): when `claims/claims.json` is missing, unreadable,
malformed or not a JSON list, the enabled gate neither raises (the
embedding is a total function) nor blocks: it returns `action=pass` with
`ok=true`, zero checked claims and empty reports, recording the problem
only in `claims_read_error` (the error name, or `not_a_list`) and
`claims_file_present`. -/
theorem claims_file_error_tolerance (pf : ProjectState)
    (cfg : CitationAccuracyGateConfig) (he : cfg.enabled = true)
    (hbad : pf.claimsFile = .absent ∨ (∃ e, pf.claimsFile = .unreadable e) ∨
      (∃ v, pf.claimsFile = .content v ∧ ∀ xs, v ≠ .jarr xs)) :
    (check_citation_accuracy_gate pf cfg).result.action = .pass ∧
    (check_citation_accuracy_gate pf cfg).result.ok = true ∧
    (check_citation_accuracy_gate pf cfg).result.checked_claims_total = 0 ∧
    (check_citation_accuracy_gate pf cfg).result.failed_claims_total = 0 ∧
    (check_citation_accuracy_gate pf cfg).result.reports = [] ∧
    (check_citation_accuracy_gate pf cfg).result.claims_read_error =
      (load_json_list pf.claimsFile).2 ∧
    (check_citation_accuracy_gate pf cfg).result.claims_file_present =
      fileExists pf.claimsFile := by
  have hload : (load_json_list pf.claimsFile).1 = [] := by
    rcases hbad with h | ⟨e, h⟩ | ⟨v, h, hv⟩
    · rw [h]; rfl
    · rw [h]; rfl
    · rw [h]
      cases v with
      | jarr xs => exact absurd rfl (hv xs)
      | jnull => rfl
      | jbool b => rfl
      | jnum n => rfl
      | jstr s => rfl
      | jobj fs => rfl
  simp [check_citation_accuracy_gate, he, load_source_backed_claims, hload]

/-- C10 (witness): the theorem at a claims file holding a JSON object
instead of a list. -/
theorem claims_file_error_tolerance_witness :
    (check_citation_accuracy_gate ⟨.content (.jobj []), []⟩
        ⟨true, .block, 18/100, 6/100, false, 20/100, false, 5⟩).result.action = .pass ∧
    (check_citation_accuracy_gate ⟨.content (.jobj []), []⟩
        ⟨true, .block, 18/100, 6/100, false, 20/100, false, 5⟩).result.claims_read_error =
      some "not_a_list" := by
  have h := claims_file_error_tolerance ⟨.content (.jobj []), []⟩
    ⟨true, .block, 18/100, 6/100, false, 20/100, false, 5⟩ rfl
    (Or.inr (Or.inr ⟨.jobj [], rfl, fun xs => by simp⟩))
  exact ⟨h.1, by rw [h.2.2.2.2.2.1]; rfl⟩

/-! ## C5: the `%` suffix and year filtering -/

/-- C5 (code bug): `_extract_numbers` is documented as capturing "integers,
decimals, and percents", and `_filter_year_like_numbers` has a dedicated
branch keeping `%`-suffixed tokens; but the trailing `\b` of the pattern
`\b\d+(?:\.\d+)?%?\b` only matches after `%` when a word character
follows, so in ordinary text (`"2020% "` before a space, punctuation or
the end) the match backtracks to `2020` — which the year filter then
removes.  At the failing input, the statement's number set is empty and
the numeric-consistency check passes, where the claim (and the filter's
own intent) requires `2020%` to participate and mismatch. -/
theorem percent_number_extraction_bug :
    extract_numbers "Inflation rose 2020% overall." = {"2020"} ∧
    filter_year_like_numbers (extract_numbers "Inflation rose 2020% overall.") = ∅ ∧
    keepNumber "2020%" = true ∧
    (verify_claim ⟨true, .block, 10/100, 5/100, false, 20/100, true, 5⟩
        (.jobj [("claim_id", .jstr "c1"),
                ("statement", .jstr "Inflation rose 2020% overall."),
                ("evidence_ids", .jarr [.jstr "ev1"])])
        [.jobj [("evidence_id", .jstr "ev1"),
                ("excerpt", .jstr "Inflation rose 3% overall.")]]).numeric_ok = true := by
  refine ⟨?_, ?_, ?_, ?_⟩
  · rfl
  · rfl
  · rfl
  · rfl

/-! ## C6: literature request deduplication -/

/-- `a` stays an initial segment after extending the list. -/
lemma listLeads_append : ∀ (a b c : List Char),
    listLeads a b = true → listLeads a (b ++ c) = true
  | [], _, _ => by intro _; rfl
  | x :: xs, [], _ => by intro hl; simp [listLeads] at hl
  | x :: xs, y :: ys, c => by
    intro hl
    simp only [listLeads, Bool.and_eq_true] at hl ⊢
    exact ⟨hl.1, listLeads_append xs ys c hl.2⟩

/-- A string contains any of its initial segments. -/
lemma containsSubstr_of_leads (s sub : String) (h : listLeads sub.data s.data = true) :
    containsSubstr s sub = true := by
  unfold containsSubstr
  cases hs : s.data with
  | nil =>
    rw [hs] at h
    cases hsub : sub.data with
    | nil => simp [containsSubstrL, hsub]
    | cons c t => rw [hsub] at h; simp [listLeads] at h
  | cons c t =>
    rw [hs] at h
    simp [containsSubstrL, h]

/-- The duplicate-blocked error message contains its fixed leading text,
whatever the rendered elapsed time is. -/
lemma dup_error_contains (x : String) :
    containsSubstr ("Duplicate request blocked. A similar query was submitted "
        ++ x ++ "s ago.") "Duplicate request blocked" = true := by
  apply containsSubstr_of_leads
  rw [String.data_append, String.data_append]
  rw [List.append_assoc]
  apply listLeads_append
  decide

/-- An entry that the reap keeps is still found, with its time. -/
lemma lookup_reap_of_le : ∀ (st : List (String × ℚ)) (h : String) (now t : ℚ),
    lookupEntry h st = some t → now - t ≤ 1800 →
    lookupEntry h (reapExpired now st) = some t
  | [], h, now, t => by intro hl _; simp [lookupEntry] at hl
  | (k, u) :: rest, h, now, t => by
    intro hl hle
    by_cases hk : k = h
    · subst hk
      have hu : u = t := by simpa [lookupEntry] using hl
      subst hu
      have hkeep : now ≤ 1800 + u := by linarith
      simp [reapExpired, List.filter_cons, hkeep, lookupEntry]
    · have hl' : lookupEntry h rest = some t := by simpa [lookupEntry, hk] using hl
      have ih := lookup_reap_of_le rest h now t hl' hle
      by_cases hkeep : now ≤ 1800 + u
      · simpa [reapExpired, List.filter_cons, hkeep, lookupEntry, hk] using ih
      · simpa [reapExpired, List.filter_cons, hkeep, lookupEntry, hk] using ih

/-- A key not present is not found. -/
lemma lookupEntry_none_of_not_mem (h : String) : ∀ (st : List (String × ℚ)),
    h ∉ st.map Prod.fst → lookupEntry h st = none
  | [] => by intro _; rfl
  | (k, u) :: rest => by
    intro hmem
    simp only [List.map_cons, List.mem_cons, not_or] at hmem
    have hk : k ≠ h := fun e => hmem.1 e.symm
    simp only [lookupEntry, hk, if_false, ite_false]
    exact lookupEntry_none_of_not_mem h rest hmem.2

/-- Under unique keys, an entry strictly older than the window is gone
after the reap. -/
lemma lookup_reap_none_of_gt : ∀ (st : List (String × ℚ)) (h : String) (now t : ℚ),
    (st.map Prod.fst).Nodup →
    lookupEntry h st = some t → 1800 < now - t →
    lookupEntry h (reapExpired now st) = none
  | [], h, now, t => by intro _ hl _; simp [lookupEntry] at hl
  | (k, u) :: rest, h, now, t => by
    intro hnd hl hgt
    simp only [List.map_cons, List.nodup_cons] at hnd
    by_cases hk : k = h
    · subst hk
      have hu : u = t := by simpa [lookupEntry] using hl
      subst hu
      have hdrop : ¬ (now ≤ 1800 + u) := by intro hc; linarith
      have hrest : lookupEntry k (reapExpired now rest) = none := by
        apply lookupEntry_none_of_not_mem
        intro hc
        exact hnd.1 ((List.Sublist.map Prod.fst (List.filter_sublist _)).subset hc)
      simpa [reapExpired, List.filter_cons, hdrop, lookupEntry] using hrest
    · have hl' : lookupEntry h rest = some t := by simpa [lookupEntry, hk] using hl
      have ih := lookup_reap_none_of_gt rest h now t hnd.2 hl' hgt
      by_cases hkeep : now ≤ 1800 + u
      · simpa [reapExpired, List.filter_cons, hkeep, lookupEntry, hk] using ih
      · simpa [reapExpired, List.filter_cons, hkeep, lookupEntry, hk] using ih

/-- After a dict-style replace of key `h`, key `h` maps to the new value. -/
lemma lookup_map_replace (h : String) (v : ℚ) : ∀ (m : List (String × ℚ)),
    m.any (fun p => p.1 = h) = true →
    lookupEntry h (m.map (fun p => if p.1 = h then (h, v) else p)) = some v
  | [] => by intro hany; simp at hany
  | (k, u) :: rest => by
    intro hany
    by_cases hk : k = h
    · subst hk
      have hstep : List.map (fun p => if p.1 = k then (k, v) else p) ((k, u) :: rest)
          = (k, v) :: List.map (fun p => if p.1 = k then (k, v) else p) rest := by
        simp
      rw [hstep]
      simp [lookupEntry]
    · have hrest : rest.any (fun p => p.1 = h) = true := by
        simpa [List.any_cons, hk] using hany
      simp only [List.map_cons]
      rw [if_neg hk]
      simp only [lookupEntry, hk, if_false, ite_false]
      exact lookup_map_replace h v rest hrest

/-- Appending a fresh entry makes its key found. -/
lemma lookup_append_new (h : String) (v : ℚ) : ∀ (m : List (String × ℚ)),
    m.any (fun p => p.1 = h) = false →
    lookupEntry h (m ++ [(h, v)]) = some v
  | [] => by intro _; simp [lookupEntry]
  | (k, u) :: rest => by
    intro hany
    simp only [List.any_cons, Bool.or_eq_false_iff] at hany
    have hk : k ≠ h := of_decide_eq_false hany.1
    simp only [List.cons_append, lookupEntry, hk, if_false, ite_false]
    exact lookup_append_new h v rest hany.2

/-- `setEntry` really sets the entry. -/
lemma lookup_setEntry_self (h : String) (v : ℚ) (m : List (String × ℚ)) :
    lookupEntry h (setEntry h v m) = some v := by
  unfold setEntry
  cases hany : m.any (fun p => p.1 = h)
  · rw [if_neg (by simp [hany])]
    exact lookup_append_new h v m hany
  · rw [if_pos rfl]
    exact lookup_map_replace h v m hany

/-- C6 (confirmed): with a constructed client, a `search_literature` call
whose full-query SHA-256 fingerprint matches an entry submitted or
completed less than 30 minutes (1800 s) earlier returns a FAILED
`LiteratureResult` whose error contains `Duplicate request blocked` and
performs no new submission; an entry strictly older than 30 minutes is
reaped on the next submission, so the identical query at 30 minutes plus
epsilon is submitted again and its entry refreshed to the completion
time. -/
theorem literature_dedup_window (st : List (String × ℚ)) (q : String)
    (ctx : Option String) (now fin t : ℚ) (prov : ProviderOutcome)
    (initErr : Option String)
    (hnd : (st.map Prod.fst).Nodup)
    (hl : lookupEntry (fingerprint (fullQuery q ctx)) st = some t) :
    (now - t < 1800 →
      (search_literature true initErr q ctx st now fin prov).result.status = .failed ∧
      containsSubstr
        (((search_literature true initErr q ctx st now fin prov).result.error).getD "")
        "Duplicate request blocked" = true ∧
      (search_literature true initErr q ctx st now fin prov).submitted = false) ∧
    (1800 < now - t →
      (search_literature true initErr q ctx st now fin prov).submitted = true ∧
      lookupEntry (fingerprint (fullQuery q ctx))
        (search_literature true initErr q ctx st now fin prov).finalState = some fin) := by
  constructor
  · intro hlt
    have hfound := lookup_reap_of_le st (fingerprint (fullQuery q ctx)) now t hl (le_of_lt hlt)
    simp only [search_literature, hfound]
    exact ⟨rfl, dup_error_contains _, rfl⟩
  · intro hgt
    have hgone := lookup_reap_none_of_gt st (fingerprint (fullQuery q ctx)) now t hnd hl hgt
    simp only [search_literature, hgone]
    refine ⟨rfl, ?_⟩
    have hset : lookupEntry (fingerprint (fullQuery q ctx))
        (setEntry (fingerprint (fullQuery q ctx)) now (reapExpired now st)) = some now :=
      lookup_setEntry_self _ _ _
    simp only [hset, Option.isSome_some, if_pos, ite_true]
    exact lookup_setEntry_self _ _ _

/-- C6 (witness): a map holding the fingerprint of query `q` from 5 seconds
ago blocks; the same entry 2000 seconds old is reaped and the query is
re-submitted. -/
theorem literature_dedup_window_witness :
    ((search_literature true none "q" none [(fingerprint "q", 0)] 5 6
        (.errored "boom")).result.status = .failed ∧
      (search_literature true none "q" none [(fingerprint "q", 0)] 5 6
        (.errored "boom")).submitted = false) ∧
    (search_literature true none "q" none [(fingerprint "q", 0)] 2000 2001
        (.errored "boom")).submitted = true := by
  have h1 := literature_dedup_window [(fingerprint "q", 0)] "q" none 5 6 0
    (.errored "boom") none (by simp) (by simp [lookupEntry, fullQuery])
  have h2 := literature_dedup_window [(fingerprint "q", 0)] "q" none 2000 2001 0
    (.errored "boom") none (by simp) (by simp [lookupEntry, fullQuery])
  refine ⟨⟨(h1.1 (by norm_num)).1, (h1.1 (by norm_num)).2.2⟩, (h2.2 (by norm_num)).1⟩

/-! ## C4: the alignment score and failure conditions of `verify_claim` -/

/-- Jaccard overlaps are non-negative. -/
lemma jaccard_nonneg (a b : Finset String) : 0 ≤ jaccard a b := by
  unfold jaccard
  split
  · norm_num
  · split
    · norm_num
    · split
      · norm_num
      · exact div_nonneg (by positivity) (by positivity)

/-- Halving through `max(0.0, x * 0.50)` is plain halving on the
non-negative scores the verifier produces. -/
lemma max_half_eq (x : ℚ) (hx : 0 ≤ x) : max 0 (x * (50/100)) = x / 2 := by
  rw [max_eq_right (mul_nonneg hx (by norm_num))]
  ring

/-- The statement string `verify_claim` scores (spec-side name for the
code's `statement` value). -/
def specStatement (claim : JValue) : String :=
  pyStrip (strOrEmpty (getField claim "statement"))

/-- The combined evidence text (spec-side name for the code's
`evidence_text`). -/
def specEvidenceText (cfg : CitationAccuracyGateConfig) (items : List JValue) : String :=
  String.intercalate "\n" (gatherEvidence cfg items).1

/-- The keyword Jaccard overlap, as the spec words it. -/
def specKeywordOverlap (cfg : CitationAccuracyGateConfig) (claim : JValue)
    (items : List JValue) : ℚ :=
  jaccard (tokenize (specStatement claim)) (tokenize (specEvidenceText cfg items))

/-- The named-entity Jaccard overlap, as the spec words it. -/
def specEntityOverlap (cfg : CitationAccuracyGateConfig) (claim : JValue)
    (items : List JValue) : ℚ :=
  jaccard (extract_named_entities (specStatement claim))
    (extract_named_entities (specEvidenceText cfg items))

/-- The spec's numeric-mismatch condition: some non-year number of the
statement does not appear among the evidence's (non-year) numbers. -/
def specNumericMismatch (cfg : CitationAccuracyGateConfig) (claim : JValue)
    (items : List JValue) : Prop :=
  ∃ n ∈ filter_year_like_numbers (extract_numbers (specStatement claim)),
    n ∉ filter_year_like_numbers (extract_numbers (specEvidenceText cfg items))

instance (cfg : CitationAccuracyGateConfig) (claim : JValue) (items : List JValue) :
    Decidable (specNumericMismatch cfg claim items) := by
  unfold specNumericMismatch
  infer_instance

/-- The spec's composite score before the numeric penalty: the keyword
overlap, plus `0.20 ×` the entity overlap capped at `1.0` when entity
overlap is enabled. -/
def specBaseScore (cfg : CitationAccuracyGateConfig) (claim : JValue)
    (items : List JValue) : ℚ :=
  if cfg.enable_entity_overlap = true then
    min 1 (specKeywordOverlap cfg claim items + (1/5) * specEntityOverlap cfg claim items)
  else specKeywordOverlap cfg claim items

/-- The spec's alignment score: the base score, halved when numeric
consistency is enabled and the numeric mismatch holds. -/
def specAlignmentScore (cfg : CitationAccuracyGateConfig) (claim : JValue)
    (items : List JValue) : ℚ :=
  if cfg.enable_numeric_consistency = true ∧ specNumericMismatch cfg claim items then
    specBaseScore cfg claim items / 2
  else specBaseScore cfg claim items

/-- The shape of the verifier's `ok := not (c1 or c2 or c3 or c4)` flag:
it is `false` exactly when one of the four conditions holds. -/
lemma bool_fail_iff (A B : Prop) [Decidable A] [Decidable B] (x y : Bool) :
    (!(decide A || x || y || decide B)) = false ↔
      (A ∨ x = true ∨ y = true ∨ B) := by
  cases x <;> cases y <;> by_cases hA : A <;> by_cases hB : B <;> simp [hA, hB]

/-- The scoring and failure logic of `verify_claim`, abstracted over the
overlap values, the thresholds, and the numeric condition: the code-shaped
score and `ok` flag (left-hand sides, in exactly the form `verify_claim`
computes them) coincide with the spec-shaped score and failure
disjunction. -/
lemma scoring_core (eE eN : Bool) (kw ent minkw minent minal : ℚ)
    (c mm : Prop) [Decidable c] [Decidable mm] (hcm : c ↔ mm)
    (hkw : 0 ≤ kw) (hent : 0 ≤ ent) :
    ((if (eN && !(if eN = true then (if c then false else true) else true)) = true
        then max 0 ((if eE = true
            then min 1 (kw + 20/100 * (if eE = true then ent else 0))
            else kw) * (50/100))
        else (if eE = true
            then min 1 (kw + 20/100 * (if eE = true then ent else 0))
            else kw)) =
      (if eN = true ∧ mm
        then (if eE = true then min 1 (kw + (1/5) * ent) else kw) / 2
        else (if eE = true then min 1 (kw + (1/5) * ent) else kw))) ∧
    ((!(decide (kw < minkw) ||
        (eE && decide ((if eE = true then ent else 0) < minent)) ||
        (eN && !(if eN = true then (if c then false else true) else true)) ||
        decide ((if (eN && !(if eN = true then (if c then false else true) else true)) = true
            then max 0 ((if eE = true
                then min 1 (kw + 20/100 * (if eE = true then ent else 0))
                else kw) * (50/100))
            else (if eE = true
                then min 1 (kw + 20/100 * (if eE = true then ent else 0))
                else kw)) < minal))) = false ↔
      (kw < minkw ∨ (eE = true ∧ ent < minent) ∨ (eN = true ∧ mm) ∨
        (if eN = true ∧ mm
          then (if eE = true then min 1 (kw + (1/5) * ent) else kw) / 2
          else (if eE = true then min 1 (kw + (1/5) * ent) else kw)) < minal)) := by
  have hb : (if eE = true then min 1 (kw + 20/100 * (if eE = true then ent else 0)) else kw)
      = (if eE = true then min 1 (kw + (1/5) * ent) else kw) := by
    cases eE
    · rfl
    · rw [if_pos rfl, if_pos rfl, if_pos rfl]
      norm_num
  have hbase0 : 0 ≤ (if eE = true then min 1 (kw + (1/5) * ent) else kw) := by
    cases eE
    · simpa using hkw
    · rw [if_pos rfl]
      exact le_min (by norm_num) (add_nonneg hkw (mul_nonneg (by norm_num) hent))
  have h1 : (if (eN && !(if eN = true then (if c then false else true) else true)) = true
        then max 0 ((if eE = true
            then min 1 (kw + 20/100 * (if eE = true then ent else 0))
            else kw) * (50/100))
        else (if eE = true
            then min 1 (kw + 20/100 * (if eE = true then ent else 0))
            else kw)) =
      (if eN = true ∧ mm
        then (if eE = true then min 1 (kw + (1/5) * ent) else kw) / 2
        else (if eE = true then min 1 (kw + (1/5) * ent) else kw)) := by
    rw [hb]
    rcases Decidable.em c with hcc | hcc
    · have hmm : mm := hcm.mp hcc
      cases eN
      · simp [hmm]
      · simp only [if_pos rfl, hcc, if_true, ite_true, Bool.not_false, Bool.and_true,
          Bool.true_and]
        rw [if_pos (show True ∧ mm from ⟨trivial, hmm⟩)]
        exact max_half_eq _ hbase0
    · have hmm : ¬ mm := fun h => hcc (hcm.mpr h)
      cases eN
      · simp [hmm]
      · simp [hcc, hmm]
  refine ⟨h1, ?_⟩
  rw [h1, bool_fail_iff]
  rcases Decidable.em c with hcc | hcc
  · have hmm : mm := hcm.mp hcc
    cases eE <;> cases eN <;> simp [hcc, hmm]
  · have hmm : ¬ mm := fun h => hcc (hcm.mpr h)
    cases eE <;> cases eN <;> simp [hcc, hmm]

/-- C4 (confirmed): `verify_claim` reports `alignment_score` as the keyword
Jaccard overlap, plus `0.20 ×` the entity overlap capped at `1.0` when
entity overlap is enabled, then halved when numeric consistency is enabled
and some non-year number of the statement does not appear among the
evidence's numbers; and the claim is reported failed (`ok=false`) iff the
keyword overlap, the entity overlap (when enabled), the numeric check
(when enabled) or the composite score violates its threshold. -/
theorem verify_claim_scoring_spec (cfg : CitationAccuracyGateConfig)
    (claim : JValue) (items : List JValue) :
    (verify_claim cfg claim items).alignment_score =
      round6 (specAlignmentScore cfg claim items) ∧
    ((verify_claim cfg claim items).ok = false ↔
      (specKeywordOverlap cfg claim items < cfg.min_keyword_overlap ∨
        (cfg.enable_entity_overlap = true ∧
          specEntityOverlap cfg claim items < cfg.min_entity_overlap) ∨
        (cfg.enable_numeric_consistency = true ∧ specNumericMismatch cfg claim items) ∨
        specAlignmentScore cfg claim items < cfg.min_alignment_score)) := by
  have hcm : (filter_year_like_numbers (extract_numbers (specStatement claim)) ≠ ∅ ∧
      ¬ filter_year_like_numbers (extract_numbers (specStatement claim)) ⊆
        filter_year_like_numbers (extract_numbers (specEvidenceText cfg items))) ↔
      specNumericMismatch cfg claim items := by
    unfold specNumericMismatch
    constructor
    · intro hc
      exact Finset.not_subset.mp hc.2
    · intro hmm
      obtain ⟨n, hn, hnb⟩ := hmm
      exact ⟨fun he => by simp [he] at hn, Finset.not_subset.mpr ⟨n, hn, hnb⟩⟩
  have core := scoring_core cfg.enable_entity_overlap cfg.enable_numeric_consistency
    (jaccard (tokenize (specStatement claim)) (tokenize (specEvidenceText cfg items)))
    (jaccard (extract_named_entities (specStatement claim))
      (extract_named_entities (specEvidenceText cfg items)))
    cfg.min_keyword_overlap cfg.min_entity_overlap cfg.min_alignment_score
    _ _ hcm (jaccard_nonneg _ _) (jaccard_nonneg _ _)
  exact ⟨congrArg round6 core.1, core.2⟩

example : alnumRuns "The rate 2020!".data = ["The".data, "rate".data, "2020".data] := by decide
example : numsGo "Growth hit 2020% overall.".data.length none "Growth hit 2020% overall.".data
    = ["2020"] := by decide
example : numsGo "2020%x".data.length none "2020%x".data = ["2020%"] := by decide
example : numsGo "rose 3% and 4.5% up".data.length none "rose 3% and 4.5% up".data
    = ["3", "4.5"] := by decide
example : numsGo "a123 123abc 1.23abc".data.length none "a123 123abc 1.23abc".data
    = ["1"] := by decide
example : (entsGo "The GDP of France".data.length none "The GDP of France".data)
    = ["The", "GDP", "France"] := by decide
example : (entsGo "McDonald AI Ab".data.length none "McDonald AI Ab".data)
    = ["McDonald", "AI"] := by decide

end Gia
